import Mathlib

/-!
Verification of the dynamic loss-scaling policy of
`orttraining/orttraining/python/training/amp/loss_scaler.py` together with
the `TrainStepInfo` record it consumes.

Python floats are embedded as rationals (`Rat`): every operation the scaler
performs (doubling, halving, `min`, `max`) is exact on the powers of two it
manipulates, so the rational model tracks the float computation exactly on
all inputs the claims mention.  Python integers are embedded as `Int`.
Python exceptions are embedded as the `Except` monad over `PyError`.
-/

/-- Python exceptions observable in this fragment. -/
inductive PyError where
  | notImplementedError
  | assertionError
deriving DecidableEq, Repr

/-- Dynamically-typed Python values that may be passed to the
`TrainStepInfo` constructor in the tests (`None`, booleans, integers,
strings). -/
inductive PyValue where
  | none
  | bool (b : Bool)
  | int (n : Int)
  | str (s : String)
deriving DecidableEq, Repr

/-- The per-step snapshot consumed by `LossScaler.update`
(`TrainStepInfo` in `orttrainer.py`): finite-flag, epoch index, step
index, each optional. -/
structure TrainStepInfo where
  all_finite : Option Bool
  epoch : Option Int
  step : Option Int
deriving DecidableEq, Repr

/-- `v` is `None` or a Python `bool`. -/
def PyValue.isOptBool : PyValue → Bool
  | .none => true
  | .bool _ => true
  | _ => false

/-- `v` is `None` or a non-negative Python `int`. -/
def PyValue.isOptNonnegInt : PyValue → Bool
  | .none => true
  | .int n => decide (0 ≤ n)
  | _ => false

/-- Coerce an already-validated optional-bool `PyValue` to `Option Bool`. -/
def PyValue.toOptBool : PyValue → Option Bool
  | .bool b => some b
  | _ => Option.none

/-- Coerce an already-validated optional-int `PyValue` to `Option Int`. -/
def PyValue.toOptInt : PyValue → Option Int
  | .int n => some n
  | _ => Option.none

/-- Modelled from the spec: the constructor of `TrainStepInfo` lives in
`orttrainer.py`, which is not part of this source fragment (only its test,
`testTrainStepInfoInvalidAllFinite`, is).  Per the spec, construction
asserts that `all_finite`, when provided, is boolean-typed and that
`epoch`/`step`, when provided, are non-negative integers, raising an
assertion error otherwise; the validated values are stored unchanged. -/
def TrainStepInfo.make (all_finite epoch step : PyValue) :
    Except PyError TrainStepInfo :=
  if !all_finite.isOptBool then .error .assertionError
  else if !epoch.isOptNonnegInt then .error .assertionError
  else if !step.isOptNonnegInt then .error .assertionError
  else .ok ⟨all_finite.toOptBool, epoch.toOptInt, step.toOptInt⟩

/-- The abstract base policy (`class LossScaler`).  It holds no state of
its own; both methods unconditionally raise `NotImplementedError`. -/
structure LossScaler where

/-- `LossScaler.reset`: `raise NotImplementedError`. -/
def LossScaler.reset (_self : LossScaler) : Except PyError Unit :=
  .error .notImplementedError

/-- `LossScaler.update`: `raise NotImplementedError`. -/
def LossScaler.update (_self : LossScaler) (_train_step_info : TrainStepInfo) :
    Except PyError Unit :=
  .error .notImplementedError

/-- State of `class DynamicLossScaler(LossScaler)`: the five public
attributes set by `__init__` plus the two private ones
(`_initial_loss_scale`, `_stable_steps_count`). -/
structure DynamicLossScaler where
  automatic_update : Bool
  loss_scale : Rat
  up_scale_window : Int
  min_loss_scale : Rat
  max_loss_scale : Rat
  initial_loss_scale : Rat
  stable_steps_count : Int
deriving DecidableEq, Repr

namespace DynamicLossScaler

/-- `DynamicLossScaler.__init__`: stores the five arguments, captures
`loss_scale` into `_initial_loss_scale` and zeroes
`_stable_steps_count`. -/
def init (automatic_update : Bool) (loss_scale : Rat)
    (up_scale_window : Int) (min_loss_scale max_loss_scale : Rat) :
    DynamicLossScaler :=
  { automatic_update := automatic_update
    loss_scale := loss_scale
    up_scale_window := up_scale_window
    min_loss_scale := min_loss_scale
    max_loss_scale := max_loss_scale
    initial_loss_scale := loss_scale
    stable_steps_count := 0 }

/-- The scaler obtained from `DynamicLossScaler()` with all defaults:
`automatic_update=True`, `loss_scale=float(1 << 16)`,
`up_scale_window=2000`, `min_loss_scale=1.0`,
`max_loss_scale=float(1 << 24)`. -/
def defaultScaler : DynamicLossScaler :=
  init true 65536 2000 1 16777216

/-- `DynamicLossScaler.reset`: restores `loss_scale` to
`_initial_loss_scale` and zeroes the counter. -/
def reset (s : DynamicLossScaler) : DynamicLossScaler :=
  { s with loss_scale := s.initial_loss_scale, stable_steps_count := 0 }

/-- `DynamicLossScaler.update`: the `if train_step_info.all_finite:`
test is Python truthiness, so only `all_finite = some true` takes the
stable branch; `False` and `None` both fall to the `else` branch. -/
def update (s : DynamicLossScaler) (train_step_info : TrainStepInfo) :
    DynamicLossScaler :=
  if train_step_info.all_finite = some true then
    let c := s.stable_steps_count + 1
    if c ≥ s.up_scale_window then
      { s with loss_scale := min s.max_loss_scale (s.loss_scale * 2)
               stable_steps_count := 0 }
    else
      { s with stable_steps_count := c }
  else
    { s with loss_scale := max s.min_loss_scale (s.loss_scale / 2)
             stable_steps_count := 0 }

end DynamicLossScaler

/-- One externally observable call on a `DynamicLossScaler`. -/
inductive ScalerOp where
  | update (train_step_info : TrainStepInfo)
  | reset
deriving DecidableEq, Repr

/-- Execute one call. -/
def applyOp (s : DynamicLossScaler) : ScalerOp → DynamicLossScaler
  | .update i => s.update i
  | .reset => s.reset

/-- Run a sequence of calls left to right. -/
def applyOps (s : DynamicLossScaler) (ops : List ScalerOp) : DynamicLossScaler :=
  ops.foldl applyOp s

/-- A step record whose `all_finite` is `True` (epoch/step untracked). -/
def finiteInfo : TrainStepInfo := ⟨some true, Option.none, Option.none⟩

/-- A step record whose `all_finite` is `False`. -/
def overflowInfo : TrainStepInfo := ⟨some false, Option.none, Option.none⟩

/-- A step record whose `all_finite` is `None`. -/
def unknownInfo : TrainStepInfo := ⟨Option.none, Option.none, Option.none⟩

/-! ### Basic lemmas about the three branches of `update` -/

namespace DynamicLossScaler

theorem update_stable_no_trigger (s : DynamicLossScaler) (i : TrainStepInfo)
    (hfin : i.all_finite = some true)
    (h : s.stable_steps_count + 1 < s.up_scale_window) :
    s.update i = { s with stable_steps_count := s.stable_steps_count + 1 } := by
  have h2 : ¬ (s.stable_steps_count + 1 ≥ s.up_scale_window) := not_le.mpr h
  simp [update, hfin, h2]

theorem update_stable_trigger (s : DynamicLossScaler) (i : TrainStepInfo)
    (hfin : i.all_finite = some true)
    (h : s.stable_steps_count + 1 ≥ s.up_scale_window) :
    s.update i = { s with loss_scale := min s.max_loss_scale (s.loss_scale * 2),
                          stable_steps_count := 0 } := by
  simp [update, hfin, h]

theorem update_not_finite (s : DynamicLossScaler) (i : TrainStepInfo)
    (hfin : i.all_finite ≠ some true) :
    s.update i = { s with loss_scale := max s.min_loss_scale (s.loss_scale / 2),
                          stable_steps_count := 0 } := by
  simp [update, hfin]

theorem update_frame_fields (s : DynamicLossScaler) (i : TrainStepInfo) :
    (s.update i).automatic_update = s.automatic_update ∧
    (s.update i).up_scale_window = s.up_scale_window ∧
    (s.update i).min_loss_scale = s.min_loss_scale ∧
    (s.update i).max_loss_scale = s.max_loss_scale ∧
    (s.update i).initial_loss_scale = s.initial_loss_scale := by
  by_cases hfin : i.all_finite = some true
  · by_cases htrig : s.stable_steps_count + 1 ≥ s.up_scale_window
    · rw [update_stable_trigger s i hfin htrig]
      exact ⟨rfl, rfl, rfl, rfl, rfl⟩
    · rw [update_stable_no_trigger s i hfin (not_le.mp htrig)]
      exact ⟨rfl, rfl, rfl, rfl, rfl⟩
  · rw [update_not_finite s i hfin]
    exact ⟨rfl, rfl, rfl, rfl, rfl⟩

@[simp] theorem automatic_update_update (s : DynamicLossScaler) (i : TrainStepInfo) :
    (s.update i).automatic_update = s.automatic_update :=
  (update_frame_fields s i).1

@[simp] theorem up_scale_window_update (s : DynamicLossScaler) (i : TrainStepInfo) :
    (s.update i).up_scale_window = s.up_scale_window :=
  (update_frame_fields s i).2.1

@[simp] theorem min_loss_scale_update (s : DynamicLossScaler) (i : TrainStepInfo) :
    (s.update i).min_loss_scale = s.min_loss_scale :=
  (update_frame_fields s i).2.2.1

@[simp] theorem max_loss_scale_update (s : DynamicLossScaler) (i : TrainStepInfo) :
    (s.update i).max_loss_scale = s.max_loss_scale :=
  (update_frame_fields s i).2.2.2.1

@[simp] theorem initial_loss_scale_update (s : DynamicLossScaler) (i : TrainStepInfo) :
    (s.update i).initial_loss_scale = s.initial_loss_scale :=
  (update_frame_fields s i).2.2.2.2

@[simp] theorem automatic_update_reset (s : DynamicLossScaler) :
    s.reset.automatic_update = s.automatic_update := rfl

@[simp] theorem up_scale_window_reset (s : DynamicLossScaler) :
    s.reset.up_scale_window = s.up_scale_window := rfl

@[simp] theorem min_loss_scale_reset (s : DynamicLossScaler) :
    s.reset.min_loss_scale = s.min_loss_scale := rfl

@[simp] theorem max_loss_scale_reset (s : DynamicLossScaler) :
    s.reset.max_loss_scale = s.max_loss_scale := rfl

@[simp] theorem initial_loss_scale_reset (s : DynamicLossScaler) :
    s.reset.initial_loss_scale = s.initial_loss_scale := rfl

@[simp] theorem loss_scale_reset (s : DynamicLossScaler) :
    s.reset.loss_scale = s.initial_loss_scale := rfl

@[simp] theorem stable_steps_count_reset (s : DynamicLossScaler) :
    s.reset.stable_steps_count = 0 := rfl

end DynamicLossScaler

@[simp] theorem applyOp_update (s : DynamicLossScaler) (i : TrainStepInfo) :
    applyOp s (ScalerOp.update i) = s.update i := rfl

@[simp] theorem applyOp_reset (s : DynamicLossScaler) :
    applyOp s ScalerOp.reset = s.reset := rfl

@[simp] theorem applyOps_nil (s : DynamicLossScaler) : applyOps s [] = s := rfl

@[simp] theorem applyOps_cons (s : DynamicLossScaler) (op : ScalerOp) (ops : List ScalerOp) :
    applyOps s (op :: ops) = applyOps (applyOp s op) ops := rfl

@[simp] theorem initial_loss_scale_applyOp (s : DynamicLossScaler) (op : ScalerOp) :
    (applyOp s op).initial_loss_scale = s.initial_loss_scale := by
  cases op <;> simp

@[simp] theorem up_scale_window_applyOp (s : DynamicLossScaler) (op : ScalerOp) :
    (applyOp s op).up_scale_window = s.up_scale_window := by
  cases op <;> simp

@[simp] theorem initial_loss_scale_applyOps (s : DynamicLossScaler) (ops : List ScalerOp) :
    (applyOps s ops).initial_loss_scale = s.initial_loss_scale := by
  induction ops generalizing s with
  | nil => rfl
  | cons op t ih => simp [ih]

@[simp] theorem up_scale_window_applyOps (s : DynamicLossScaler) (ops : List ScalerOp) :
    (applyOps s ops).up_scale_window = s.up_scale_window := by
  induction ops generalizing s with
  | nil => rfl
  | cons op t ih => simp [ih]

/-! ### A run of consecutive stable steps -/

/-- Running `update` over a list `l` of all-finite step records from a
state whose counter `c` satisfies `0 ≤ c < window` and
`c + l.length ≤ window` either triggers the doubling exactly at the end
of the run (when `c + l.length = window`) or merely advances the
counter. -/
theorem applyOps_stable_run (l : List TrainStepInfo) (s : DynamicLossScaler)
    (hall : ∀ i ∈ l, i.all_finite = some true)
    (h0 : 0 ≤ s.stable_steps_count)
    (hlt : s.stable_steps_count < s.up_scale_window)
    (hle : s.stable_steps_count + l.length ≤ s.up_scale_window) :
    applyOps s (l.map ScalerOp.update) =
      if s.stable_steps_count + l.length = s.up_scale_window then
        { s with loss_scale := min s.max_loss_scale (s.loss_scale * 2),
                 stable_steps_count := 0 }
      else
        { s with stable_steps_count := s.stable_steps_count + l.length } := by
  induction l generalizing s with
  | nil =>
    rw [List.map_nil, applyOps_nil, if_neg (by simpa using hlt.ne)]
    simp
  | cons i t ih =>
    have hfin : i.all_finite = some true := hall i (List.mem_cons_self i t)
    have hallt : ∀ j ∈ t, j.all_finite = some true :=
      fun j hj => hall j (List.mem_cons_of_mem i hj)
    have hlen : ((i :: t).length : Int) = (t.length : Int) + 1 := by
      simp [List.length_cons]
    by_cases htrig : s.stable_steps_count + 1 ≥ s.up_scale_window
    · have ht0 : t = [] := by
        have hlen2 : (t.length : Int) ≤ 0 := by
          rw [hlen] at hle; omega
        have : t.length = 0 := by omega
        exact List.length_eq_zero.mp this
      subst ht0
      rw [List.map_cons, List.map_nil, applyOps_cons, applyOp_update,
        DynamicLossScaler.update_stable_trigger s i hfin htrig, applyOps_nil,
        if_pos (by simpa using by omega)]
    · push_neg at htrig
      rw [List.map_cons, applyOps_cons, applyOp_update,
        DynamicLossScaler.update_stable_no_trigger s i hfin htrig]
      rw [ih { s with stable_steps_count := s.stable_steps_count + 1 } hallt
        (by simpa using by omega) (by simpa using htrig)
        (by simp only [hlen] at hle ⊢; simpa using by omega)]
      by_cases hw : s.stable_steps_count + 1 + (t.length : Int) = s.up_scale_window
      · rw [if_pos (by simpa using hw), if_pos (by rw [hlen]; omega)]
      · rw [if_neg (by simpa using hw), if_neg (by rw [hlen]; omega)]
        simp only [hlen]
        congr 1
        omega

/-! ### Invariants preserved by `update` and `reset` -/

/-- The bounds invariant: the current and captured-initial loss scales
are positive and lie in `[min_loss_scale, max_loss_scale]`. -/
def BoundedState (s : DynamicLossScaler) : Prop :=
  0 < s.loss_scale ∧ s.min_loss_scale ≤ s.loss_scale ∧
    s.loss_scale ≤ s.max_loss_scale ∧
  0 < s.initial_loss_scale ∧ s.min_loss_scale ≤ s.initial_loss_scale ∧
    s.initial_loss_scale ≤ s.max_loss_scale

theorem boundedState_update (s : DynamicLossScaler) (i : TrainStepInfo)
    (h : BoundedState s) : BoundedState (s.update i) := by
  obtain ⟨h1, h2, h3, h4, h5, h6⟩ := h
  by_cases hfin : i.all_finite = some true
  · by_cases htrig : s.stable_steps_count + 1 ≥ s.up_scale_window
    · rw [DynamicLossScaler.update_stable_trigger s i hfin htrig]
      refine ⟨lt_min (lt_of_lt_of_le h1 h3) (by linarith),
        le_min (h2.trans h3) (by linarith), min_le_left _ _, h4, h5, h6⟩
    · rw [DynamicLossScaler.update_stable_no_trigger s i hfin (not_le.mp htrig)]
      exact ⟨h1, h2, h3, h4, h5, h6⟩
  · rw [DynamicLossScaler.update_not_finite s i hfin]
    refine ⟨lt_max_of_lt_right (by linarith), le_max_left _ _,
      max_le (h2.trans h3) (by linarith), h4, h5, h6⟩

theorem boundedState_reset (s : DynamicLossScaler) (h : BoundedState s) :
    BoundedState s.reset := by
  obtain ⟨h1, h2, h3, h4, h5, h6⟩ := h
  exact ⟨h4, h5, h6, h4, h5, h6⟩

theorem boundedState_applyOps (s : DynamicLossScaler) (ops : List ScalerOp)
    (h : BoundedState s) : BoundedState (applyOps s ops) := by
  induction ops generalizing s with
  | nil => exact h
  | cons op t ih =>
    rw [applyOps_cons]
    apply ih
    cases op with
    | update i => exact boundedState_update s i h
    | reset => exact boundedState_reset s h

/-- The counter invariant: `0 ≤ _stable_steps_count < up_scale_window`. -/
def CounterInv (s : DynamicLossScaler) : Prop :=
  0 ≤ s.stable_steps_count ∧ s.stable_steps_count < s.up_scale_window

theorem counterInv_update (s : DynamicLossScaler) (i : TrainStepInfo)
    (h : CounterInv s) : CounterInv (s.update i) := by
  obtain ⟨h1, h2⟩ := h
  by_cases hfin : i.all_finite = some true
  · by_cases htrig : s.stable_steps_count + 1 ≥ s.up_scale_window
    · rw [DynamicLossScaler.update_stable_trigger s i hfin htrig]
      exact ⟨le_refl 0, lt_of_le_of_lt h1 h2⟩
    · rw [DynamicLossScaler.update_stable_no_trigger s i hfin (not_le.mp htrig)]
      exact ⟨add_nonneg h1 zero_le_one, not_le.mp htrig⟩
  · rw [DynamicLossScaler.update_not_finite s i hfin]
    exact ⟨le_refl 0, lt_of_le_of_lt h1 h2⟩

theorem counterInv_reset (s : DynamicLossScaler) (h : CounterInv s) :
    CounterInv s.reset :=
  ⟨le_refl 0, lt_of_le_of_lt h.1 h.2⟩

theorem counterInv_applyOps (s : DynamicLossScaler) (ops : List ScalerOp)
    (h : CounterInv s) : CounterInv (applyOps s ops) := by
  induction ops generalizing s with
  | nil => exact h
  | cons op t ih =>
    rw [applyOps_cons]
    apply ih
    cases op with
    | update i => exact counterInv_update s i h
    | reset => exact counterInv_reset s h

/-! ### Claim theorems -/

/-- C1 (counterexample): the claimed invariant
`min_loss_scale ≤ loss_scale ≤ max_loss_scale` after every `update` call
fails for a valid construction whose initial `loss_scale` lies outside
the clamp interval.  `DynamicLossScaler(loss_scale=float(1 << 30))` is a
valid construction per the spec's constraint table (positive scale,
positive window, `min_loss_scale ≤ max_loss_scale`), yet one
`update(all_finite=False)` call leaves
`loss_scale = 2^29 > max_loss_scale = 2^24`. -/
theorem update_can_leave_bounds_cex :
    ¬ (((DynamicLossScaler.init true 1073741824 2000 1 16777216).update
          overflowInfo).loss_scale
        ≤ ((DynamicLossScaler.init true 1073741824 2000 1 16777216).update
          overflowInfo).max_loss_scale) := by
  rw [DynamicLossScaler.update_not_finite _ _ (by simp [overflowInfo])]
  norm_num [DynamicLossScaler.init, max_def]

/-- C1 (amended): for every `DynamicLossScaler` built from a valid
construction whose initial `loss_scale` additionally satisfies
`min_loss_scale ≤ loss_scale ≤ max_loss_scale`, the invariant
`min_loss_scale ≤ loss_scale ≤ max_loss_scale` holds at all times after
any sequence of `update`/`reset` calls. -/
theorem loss_scale_bounds_invariant (a : Bool) (ls : Rat) (w : Int)
    (mn mx : Rat) (ops : List ScalerOp)
    (hpos : 0 < ls) (hlo : mn ≤ ls) (hhi : ls ≤ mx) :
    (applyOps (DynamicLossScaler.init a ls w mn mx) ops).min_loss_scale
      ≤ (applyOps (DynamicLossScaler.init a ls w mn mx) ops).loss_scale ∧
    (applyOps (DynamicLossScaler.init a ls w mn mx) ops).loss_scale
      ≤ (applyOps (DynamicLossScaler.init a ls w mn mx) ops).max_loss_scale := by
  have h := boundedState_applyOps (DynamicLossScaler.init a ls w mn mx) ops
    ⟨hpos, hlo, hhi, hpos, hlo, hhi⟩
  exact ⟨h.2.1, h.2.2.1⟩

/-- Witness for C1: the default construction followed by one overflow
update keeps `loss_scale` within `[1, 2^24]`. -/
theorem loss_scale_bounds_invariant_witness :
    (0 : Rat) < 65536 ∧ (1 : Rat) ≤ 65536 ∧ (65536 : Rat) ≤ 16777216 ∧
    ((applyOps (DynamicLossScaler.init true 65536 2000 1 16777216)
        [ScalerOp.update overflowInfo]).min_loss_scale
      ≤ (applyOps (DynamicLossScaler.init true 65536 2000 1 16777216)
        [ScalerOp.update overflowInfo]).loss_scale ∧
     (applyOps (DynamicLossScaler.init true 65536 2000 1 16777216)
        [ScalerOp.update overflowInfo]).loss_scale
      ≤ (applyOps (DynamicLossScaler.init true 65536 2000 1 16777216)
        [ScalerOp.update overflowInfo]).max_loss_scale) :=
  ⟨by norm_num, by norm_num, by norm_num,
    loss_scale_bounds_invariant true 65536 2000 1 16777216
      [ScalerOp.update overflowInfo] (by norm_num) (by norm_num) (by norm_num)⟩

/-- C2: from a state with `_stable_steps_count = 0` and a positive
window, a run of exactly `up_scale_window` calls of
`update(all_finite=True)` yields
`loss_scale = min(max_loss_scale, 2 * loss_scale)` and counter `0`. -/
theorem stable_window_doubles (s : DynamicLossScaler)
    (l : List TrainStepInfo)
    (hc : s.stable_steps_count = 0)
    (hall : ∀ i ∈ l, i.all_finite = some true)
    (hlen : (l.length : Int) = s.up_scale_window)
    (hpos : 1 ≤ s.up_scale_window) :
    (applyOps s (l.map ScalerOp.update)).loss_scale
      = min s.max_loss_scale (s.loss_scale * 2) ∧
    (applyOps s (l.map ScalerOp.update)).stable_steps_count = 0 := by
  rw [applyOps_stable_run l s hall (by omega) (by omega) (by omega),
    if_pos (by omega)]
  exact ⟨rfl, rfl⟩

/-- Witness for C2, realising the spec's concrete scenario: from the
default construction, the 2000th consecutive `all_finite=True` update
yields `loss_scale = 131072` with counter `0`. -/
theorem stable_window_doubles_witness :
    (applyOps DynamicLossScaler.defaultScaler
        ((List.replicate 2000 finiteInfo).map ScalerOp.update)).loss_scale
      = 131072 ∧
    (applyOps DynamicLossScaler.defaultScaler
        ((List.replicate 2000 finiteInfo).map ScalerOp.update)).stable_steps_count
      = 0 := by
  have h := stable_window_doubles DynamicLossScaler.defaultScaler
    (List.replicate 2000 finiteInfo) rfl
    (fun i hi => by rw [List.eq_of_mem_replicate hi]; rfl)
    (by rw [List.length_replicate]
        norm_num [DynamicLossScaler.defaultScaler, DynamicLossScaler.init])
    (by norm_num [DynamicLossScaler.defaultScaler, DynamicLossScaler.init])
  refine ⟨?_, h.2⟩
  rw [h.1]
  norm_num [DynamicLossScaler.defaultScaler, DynamicLossScaler.init, min_def]

/-- C3: one `update(all_finite=False)` call from any state yields
`loss_scale = max(min_loss_scale, loss_scale / 2)` and counter `0`;
in particular, from the default construction it yields
`loss_scale = 32768` with counter `0`. -/
theorem overflow_halves :
    (∀ (s : DynamicLossScaler) (e p : Option Int),
      (s.update ⟨some false, e, p⟩).loss_scale
          = max s.min_loss_scale (s.loss_scale / 2) ∧
      (s.update ⟨some false, e, p⟩).stable_steps_count = 0) ∧
    (DynamicLossScaler.defaultScaler.update overflowInfo).loss_scale = 32768 ∧
    (DynamicLossScaler.defaultScaler.update overflowInfo).stable_steps_count
      = 0 := by
  refine ⟨fun s e p => ?_, ?_, ?_⟩
  · rw [DynamicLossScaler.update_not_finite s _ (by simp)]
    exact ⟨rfl, rfl⟩
  · rw [DynamicLossScaler.update_not_finite _ _ (by simp [overflowInfo])]
    norm_num [DynamicLossScaler.defaultScaler, DynamicLossScaler.init, max_def]
  · rw [DynamicLossScaler.update_not_finite _ _ (by simp [overflowInfo])]

/-- C4: from a state with `_stable_steps_count = 0`, any run of fewer
than `up_scale_window` calls of `update(all_finite=True)` leaves
`loss_scale` unchanged — each call only increments the counter. -/
theorem below_window_keeps_scale (s : DynamicLossScaler)
    (l : List TrainStepInfo)
    (hc : s.stable_steps_count = 0)
    (hall : ∀ i ∈ l, i.all_finite = some true)
    (hlen : (l.length : Int) < s.up_scale_window) :
    applyOps s (l.map ScalerOp.update)
      = { s with stable_steps_count := (l.length : Int) } := by
  rw [applyOps_stable_run l s hall (by omega) (by omega) (by omega),
    if_neg (by omega), hc, zero_add]

/-- Witness for C4, realising the spec's concrete scenario: 1999
consecutive `all_finite=True` updates from the default construction
leave `loss_scale` at `65536` (the counter reaching `1999`). -/
theorem below_window_keeps_scale_witness :
    (applyOps DynamicLossScaler.defaultScaler
        ((List.replicate 1999 finiteInfo).map ScalerOp.update)).loss_scale
      = 65536 ∧
    (applyOps DynamicLossScaler.defaultScaler
        ((List.replicate 1999 finiteInfo).map ScalerOp.update)).stable_steps_count
      = 1999 := by
  have h := below_window_keeps_scale DynamicLossScaler.defaultScaler
    (List.replicate 1999 finiteInfo) rfl
    (fun i hi => by rw [List.eq_of_mem_replicate hi]; rfl)
    (by rw [List.length_replicate]
        norm_num [DynamicLossScaler.defaultScaler, DynamicLossScaler.init])
  rw [h]
  refine ⟨rfl, ?_⟩
  rw [List.length_replicate]
  norm_num

/-- C5: after any sequence of `update` calls (indeed any mix of
`update` and `reset` calls), `reset()` restores `loss_scale` to the
construction-time value and zeroes the stable-step counter; the
operation is total, so no error is raised. -/
theorem reset_restores_initial (a : Bool) (ls : Rat) (w : Int)
    (mn mx : Rat) (ops : List ScalerOp) :
    (applyOps (DynamicLossScaler.init a ls w mn mx) ops).reset.loss_scale
      = ls ∧
    (applyOps (DynamicLossScaler.init a ls w mn mx) ops).reset.stable_steps_count
      = 0 := by
  constructor
  · rw [DynamicLossScaler.loss_scale_reset, initial_loss_scale_applyOps]
    rfl
  · rfl

/-- C6: `update` with `all_finite = None` takes the overflow branch
(Python truthiness treats `None` as falsy): `loss_scale` becomes
`max(min_loss_scale, loss_scale / 2)` and the counter becomes `0`. -/
theorem unknown_all_finite_halves (s : DynamicLossScaler) (e p : Option Int) :
    (s.update ⟨Option.none, e, p⟩).loss_scale
        = max s.min_loss_scale (s.loss_scale / 2) ∧
    (s.update ⟨Option.none, e, p⟩).stable_steps_count = 0 := by
  rw [DynamicLossScaler.update_not_finite s _ (by simp)]
  exact ⟨rfl, rfl⟩

/-- C7: calling `reset()` or `update(step_info)` on the abstract base
`LossScaler` raises `NotImplementedError`, for every instance and every
input. -/
theorem base_lossScaler_not_implemented (b : LossScaler) (i : TrainStepInfo) :
    b.reset = Except.error PyError.notImplementedError ∧
    b.update i = Except.error PyError.notImplementedError :=
  ⟨rfl, rfl⟩

/-- C8: `TrainStepInfo` construction fails with a validation
(assertion) error whenever `all_finite` is provided and is not a
boolean, or `epoch`/`step` is provided and is not a non-negative
integer; in particular `TrainStepInfo(all_finite=-1)` and
`TrainStepInfo(all_finite="Hello")` both fail.  In the embedding the
error is the `Except.error` value returned to the caller, so it is
always surfaced. -/
theorem trainStepInfo_validation :
    (∀ v epoch step : PyValue, v.isOptBool = false →
      TrainStepInfo.make v epoch step = Except.error PyError.assertionError) ∧
    (∀ all_finite v step : PyValue, v.isOptNonnegInt = false →
      TrainStepInfo.make all_finite v step
        = Except.error PyError.assertionError) ∧
    (∀ all_finite epoch v : PyValue, v.isOptNonnegInt = false →
      TrainStepInfo.make all_finite epoch v
        = Except.error PyError.assertionError) ∧
    TrainStepInfo.make (PyValue.int (-1)) PyValue.none PyValue.none
      = Except.error PyError.assertionError ∧
    TrainStepInfo.make (PyValue.str "Hello") PyValue.none PyValue.none
      = Except.error PyError.assertionError := by
  refine ⟨fun v e p hv => ?_, fun a v p hv => ?_, fun a e v hv => ?_,
    rfl, rfl⟩
  · simp [TrainStepInfo.make, hv]
  · unfold TrainStepInfo.make
    by_cases ha : a.isOptBool <;> simp [ha, hv]
  · unfold TrainStepInfo.make
    by_cases ha : a.isOptBool <;> by_cases he : e.isOptNonnegInt <;>
      simp [ha, he, hv]

/-- Witness for C8: `all_finite = -1` is not an optional boolean and
construction indeed fails. -/
theorem trainStepInfo_validation_witness :
    (PyValue.int (-1)).isOptBool = false ∧
    TrainStepInfo.make (PyValue.int (-1)) PyValue.none PyValue.none
      = Except.error PyError.assertionError :=
  ⟨rfl,
    trainStepInfo_validation.1 (PyValue.int (-1)) PyValue.none PyValue.none rfl⟩

/-- C9: `update` mutates only `loss_scale` and `_stable_steps_count`:
`automatic_update`, `up_scale_window`, `min_loss_scale`,
`max_loss_scale` and the captured `_initial_loss_scale` are unchanged
by every call.  (In Python the method returns `None`; the embedding
makes this explicit by returning only the successor state.) -/
theorem update_frame_effects (s : DynamicLossScaler) (i : TrainStepInfo) :
    (s.update i).automatic_update = s.automatic_update ∧
    (s.update i).up_scale_window = s.up_scale_window ∧
    (s.update i).min_loss_scale = s.min_loss_scale ∧
    (s.update i).max_loss_scale = s.max_loss_scale ∧
    (s.update i).initial_loss_scale = s.initial_loss_scale :=
  DynamicLossScaler.update_frame_fields s i

/-- C10: for a scaler constructed with `up_scale_window ≥ 1`, the
invariant `0 ≤ _stable_steps_count < up_scale_window` holds immediately
after construction (the empty sequence) and after every sequence of
`update`/`reset` calls. -/
theorem counter_window_invariant (a : Bool) (ls : Rat) (w : Int)
    (mn mx : Rat) (ops : List ScalerOp) (hw : 1 ≤ w) :
    0 ≤ (applyOps (DynamicLossScaler.init a ls w mn mx) ops).stable_steps_count ∧
    (applyOps (DynamicLossScaler.init a ls w mn mx) ops).stable_steps_count
      < (applyOps (DynamicLossScaler.init a ls w mn mx) ops).up_scale_window :=
  counterInv_applyOps (DynamicLossScaler.init a ls w mn mx) ops
    ⟨le_refl 0, lt_of_lt_of_le Int.zero_lt_one hw⟩

/-- Witness for C10: the default construction (`up_scale_window = 2000`)
after one stable step and one reset satisfies the counter invariant. -/
theorem counter_window_invariant_witness :
    (1 : Int) ≤ 2000 ∧
    (0 ≤ (applyOps (DynamicLossScaler.init true 65536 2000 1 16777216)
        [ScalerOp.update finiteInfo, ScalerOp.reset]).stable_steps_count ∧
     (applyOps (DynamicLossScaler.init true 65536 2000 1 16777216)
        [ScalerOp.update finiteInfo, ScalerOp.reset]).stable_steps_count
      < (applyOps (DynamicLossScaler.init true 65536 2000 1 16777216)
        [ScalerOp.update finiteInfo, ScalerOp.reset]).up_scale_window) :=
  ⟨by norm_num,
    counter_window_invariant true 65536 2000 1 16777216
      [ScalerOp.update finiteInfo, ScalerOp.reset] (by norm_num)⟩
